import Mathlib

/-!
Verification of the Secure Notes backend security core against its
specification.  The Python source (Django backend) is shallowly embedded:
pure functions become Lean functions, model methods that mutate a row
become functions from the record (plus an explicit clock) to the updated
record, and request handlers become functions on an explicit state.
Timestamps are modelled as natural numbers (seconds).  Password hashing is
an external trusted library (one-way hash + constant-time compare), so a
stored hash is modelled by the password itself and `check_password` by
string equality, exactly the library's contract.
-/

namespace SecureNotes

/-! ## Subscription tiers and RBAC limits (notes/rbac_utils.py) -/

/-- Subscription tiers, the choices of `UserProfile.subscription_tier` and
`PremiumSubscription.tier` (authentication/models.py). -/
inductive Tier where
  | FREE
  | PRO
  | ENTERPRISE
deriving DecidableEq, Repr

/-- `SubscriptionLimits.LIMITS[tier]['max_notes']` with the `or 50`
fallback of `get_max_notes` (rbac_utils.py lines 13-51). -/
def get_max_notes : Tier → Nat
  | .FREE => 50
  | .PRO => 1000
  | .ENTERPRISE => 999999

/-- `SubscriptionLimits.LIMITS[tier]['max_upload_size_mb']` with the
`or 5` fallback of `get_max_upload_size_mb` (rbac_utils.py lines 53-56). -/
def get_max_upload_size_mb : Tier → Nat
  | .FREE => 5
  | .PRO => 500
  | .ENTERPRISE => 5000

/-- `SubscriptionLimits.LIMITS[tier]['api_access']` with the `or False`
fallback of `has_api_access` (rbac_utils.py lines 58-61). -/
def has_api_access : Tier → Bool
  | .FREE => false
  | .PRO => true
  | .ENTERPRISE => true

/-- Result record returned by `check_note_limit` (rbac_utils.py lines
69-99); the message strings are not modelled. -/
structure NoteLimitResult where
  allowed : Bool
  current_count : Nat
  limit : Nat
deriving DecidableEq, Repr

/-- `check_note_limit(user)` (rbac_utils.py lines 69-99).  The `try`
branch reads `user.profile.subscription_tier`; a missing profile raises
and lands in the `except` branch, which returns `allowed: True` with the
FREE-tier limit.  `profileTier = none` models the missing profile. -/
def check_note_limit (profileTier : Option Tier) (noteCount : Nat) : NoteLimitResult :=
  match profileTier with
  | some tier =>
      { allowed := noteCount < get_max_notes tier
        current_count := noteCount
        limit := get_max_notes tier }
  | none =>
      { allowed := true
        current_count := noteCount
        limit := get_max_notes Tier.FREE }

/-- `check_upload_size_limit(user, file_size_mb)` (rbac_utils.py lines
102-138); the `except` branch re-checks against the FREE limit. -/
def check_upload_size_limit (profileTier : Option Tier) (fileSizeMb : Nat) : Bool :=
  match profileTier with
  | some tier => fileSizeMb ≤ get_max_upload_size_mb tier
  | none => fileSizeMb ≤ get_max_upload_size_mb Tier.FREE

/-- `check_api_access(user)` (rbac_utils.py lines 141-152); the `except`
branch returns `False`. -/
def check_api_access (profileTier : Option Tier) : Bool :=
  match profileTier with
  | some tier => has_api_access tier
  | none => false

/-! ## Account lockout (authentication/models.py, secure_notes/settings.py) -/

/-- `AXES_FAILURE_LIMIT = 5` (settings.py line 111), read by
`increment_failed_login`. -/
def axesFailureLimit : Nat := 5

/-- `AXES_COOLOFF_TIME = 0.1` hours (settings.py line 112) converted to
seconds, as `timedelta(hours=lockout_hours)` does. -/
def axesCooloffSeconds : Nat := 360

/-- The lockout-relevant fields of `UserProfile`
(authentication/models.py lines 33-35). -/
structure LockState where
  failed_login_attempts : Nat
  last_failed_login : Option Nat
  account_locked_until : Option Nat
deriving DecidableEq, Repr

/-- A freshly created profile: integer default 0, nullable timestamps. -/
def freshLockState : LockState :=
  { failed_login_attempts := 0
    last_failed_login := none
    account_locked_until := none }

/-- `UserProfile.is_account_locked` (models.py lines 121-131).  Returns
the boolean result together with the (possibly lazily reset) profile:
when `account_locked_until` is set and `now < account_locked_until` the
account is locked; otherwise an expired lock is cleared and
`failed_login_attempts` reset to 0. -/
def is_account_locked (p : LockState) (now : Nat) : Bool × LockState :=
  match p.account_locked_until with
  | some t =>
      if now < t then
        (true, p)
      else
        (false, { p with account_locked_until := none, failed_login_attempts := 0 })
  | none => (false, p)

/-- `UserProfile.increment_failed_login` (models.py lines 133-144):
increments the counter, stamps `last_failed_login`, and once the counter
reaches `AXES_FAILURE_LIMIT` sets `account_locked_until = now + cooloff`. -/
def increment_failed_login (p : LockState) (now : Nat) : LockState :=
  let attempts := p.failed_login_attempts + 1
  { failed_login_attempts := attempts
    last_failed_login := some now
    account_locked_until :=
      if axesFailureLimit ≤ attempts then some (now + axesCooloffSeconds)
      else p.account_locked_until }

/-- `UserProfile.reset_failed_login` (models.py lines 146-151). -/
def reset_failed_login (_p : LockState) : LockState := freshLockState

/-! ## TOTP two-factor authentication
(authentication/models.py, authentication/views.py) -/

/-- Modelled from the spec: `pyotp.TOTP(secret).verify(token, valid_window=1)`
is a library call whose source is not in the repository.  Per the spec's
TOTPService section, verification "computes the current 30-second
time-step counter, accepts token if it matches the HOTP value for the
counter or any counter within ±windowSteps (drift tolerance), else
fails".  The per-counter HOTP code is the library's `hotp` parameter
here; `step` is the current time-step counter. -/
def totpVerifyWindow (hotp : Int → String) (token : String) (step : Int) : Bool :=
  token == hotp (step - 1) || token == hotp step || token == hotp (step + 1)

/-- Modelled from the spec: the 30-second time-step counter for a clock
reading in seconds. -/
def totpTimeStep (now : Nat) : Int := (now : Int) / 30

/-- `UserProfile.verify_totp` (models.py lines 107-113): a falsy secret
(`None` or the empty string) fails immediately, otherwise the token is
checked with drift window ±1.  `secret = none` models `None`. -/
def verify_totp (hotp : String → Int → String) (secret : Option String)
    (token : String) (step : Int) : Bool :=
  match secret with
  | none => false
  | some s => if s = "" then false else totpVerifyWindow (hotp s) token step

/-- The 2FA-relevant fields of `UserProfile` (models.py lines 25-26). -/
structure TwoFAState where
  two_factor_enabled : Bool
  two_factor_secret : Option String
deriving DecidableEq, Repr

/-- Profile of a user who has never touched 2FA: both fields default. -/
def freshTwoFAState : TwoFAState :=
  { two_factor_enabled := false, two_factor_secret := none }

/-- The events of the 2FA enrollment flow exposed by the request
handlers in authentication/views.py. -/
inductive TwoFAEvent where
  | setupEnable (newSecret : String) (step : Int)
  | setupDisable
  | verifyToken (token : String) (step : Int)
deriving DecidableEq, Repr

/-- One step of the enrollment flow (views.py lines 259-345):
`setup_two_factor` with `enable=true` calls
`profile.generate_totp_secret()` (models.py lines 90-94), which stores a
fresh secret and saves without touching `two_factor_enabled`; with
`enable=false` it clears both the flag and the secret;
`verify_two_factor` sets `two_factor_enabled = True` exactly when
`profile.verify_totp(token)` succeeds. -/
def twoFAStep (hotp : String → Int → String) (st : TwoFAState) :
    TwoFAEvent → TwoFAState
  | .setupEnable s _ => { st with two_factor_secret := some s }
  | .setupDisable => { two_factor_enabled := false, two_factor_secret := none }
  | .verifyToken token step =>
      if verify_totp hotp st.two_factor_secret token step then
        { st with two_factor_enabled := true }
      else st

/-- Run a list of enrollment events from a starting profile. -/
def twoFARun (hotp : String → Int → String) (st : TwoFAState)
    (events : List TwoFAEvent) : TwoFAState :=
  events.foldl (twoFAStep hotp) st

/-! ## Password change and history
(authentication/views.py lines 348-425, authentication/validators.py,
secure_notes/settings.py) -/

/-- `PASSWORD_HISTORY_COUNT = 5` (settings.py line 105), read both by
`check_password_history` and by the pruning step of
`change_password_view`. -/
def passwordHistoryCount : Nat := 5

/-- The credential state of one account: the current password and the
`PasswordHistory` rows ordered newest first (models.py lines 229-245).
Hashing is the trusted external library, so entries hold the password
itself and comparison is string equality. -/
structure CredState where
  current : String
  history : List String
deriving DecidableEq, Repr

/-- `check_password(plain, stored)` of the trusted hashing library:
constant-time comparison of the hash of `plain` with `stored`. -/
def credVerify (plain stored : String) : Bool := plain == stored

/-- `check_password_history(user, new_password)` (validators.py lines
51-66): scans the newest `PASSWORD_HISTORY_COUNT` history entries and
returns `False` iff one of them matches the candidate. -/
def check_password_history (st : CredState) (newPassword : String) : Bool :=
  (st.history.take passwordHistoryCount).all fun old => !(credVerify newPassword old)

/-- `PasswordComplexityValidator.validate` (validators.py lines 9-48)
combined with `MinimumLengthValidator(min_length=12)` (settings.py lines
81-98): at least 12 characters with an uppercase letter, a lowercase
letter, a digit, and a special character from the validator's set.  The
remaining library validators (common-password list, user-attribute
similarity, all-numeric) act on data outside this model and are not
relevant to the claims. -/
def validNewPassword (p : String) : Bool :=
  12 ≤ p.length
    && p.toList.any (fun c => 'A' ≤ c && c ≤ 'Z')
    && p.toList.any (fun c => 'a' ≤ c && c ≤ 'z')
    && p.toList.any (fun c => '0' ≤ c && c ≤ '9')
    && p.toList.any (fun c => "!@#$%^&*(),.?\":\x7b\x7d|<>".toList.contains c)

/-- The failure responses of `change_password_view`. -/
inductive PwError where
  | wrongOld
  | reuse
  | invalid
deriving DecidableEq, Repr

/-- Decidable equality of password-change outcomes. -/
instance : DecidableEq (Except PwError CredState) := fun a b =>
  match a, b with
  | .error e1, .error e2 =>
      if h : e1 = e2 then isTrue (by rw [h])
      else isFalse (by intro hc; injection hc; contradiction)
  | .error _, .ok _ => isFalse (by intro hc; exact Except.noConfusion hc)
  | .ok _, .error _ => isFalse (by intro hc; exact Except.noConfusion hc)
  | .ok a1, .ok a2 =>
      if h : a1 = a2 then isTrue (by rw [h])
      else isFalse (by intro hc; injection hc; contradiction)

/-- `change_password_view` (views.py lines 348-425), success path and
its three rejection paths in source order: wrong old password, history
reuse, validator failure.  On success the new password is stored, a
history entry is appended, and history beyond
`PASSWORD_HISTORY_COUNT` newest entries is pruned. -/
def change_password (st : CredState) (oldPassword newPassword : String) :
    Except PwError CredState :=
  if !(credVerify oldPassword st.current) then .error .wrongOld
  else if !(check_password_history st newPassword) then .error .reuse
  else if !(validNewPassword newPassword) then .error .invalid
  else .ok { current := newPassword
             history := (newPassword :: st.history).take passwordHistoryCount }

/-! ## Audit trail actions (notes/models.py, authentication/views.py,
authentication/views_esewa.py) -/

/-- `AuditLog.ACTION_CHOICES` (notes/models.py lines 65-74): the declared
closed enumeration of audit actions. -/
def auditActionChoices : List String :=
  ["LOGIN", "LOGOUT", "REGISTER", "CREATE_NOTE", "UPDATE_NOTE",
   "DELETE_NOTE", "ACCESS_DENIED", "FAILED_LOGIN"]

/-- The `action` value written by `verify_two_factor` when 2FA is
enabled (views.py line 334, details "2FA enabled successfully"). -/
def twoFactorEnabledAuditAction : String := "UPDATE_NOTE"

/-- The `action` value written by `setup_two_factor` when 2FA is
disabled (views.py line 304, details "2FA disabled"). -/
def twoFactorDisabledAuditAction : String := "UPDATE_NOTE"

/-- The `action` value written by `change_password_view` on success
(views.py line 417, details "Password changed"). -/
def passwordChangedAuditAction : String := "UPDATE_NOTE"

/-- The `action` value written when a note is updated (notes/views.py
line 63), the genuine note-update audit action. -/
def noteUpdatedAuditAction : String := "UPDATE_NOTE"

/-- The `action` value written by `initiate_esewa_payment`
(views_esewa.py line 133). -/
def paymentInitiatedAuditAction : String := "PAYMENT_INITIATED"

/-- The `action` value written by `verify_esewa_payment` on success
(views_esewa.py line 216). -/
def paymentCompletedAuditAction : String := "PAYMENT_COMPLETED"

/-! ## eSewa payment verification and tier mirroring
(authentication/views_esewa.py lines 155-245) -/

/-- `Transaction.STATUS_CHOICES` (authentication/models.py lines
259-266). -/
inductive TxnStatus where
  | PENDING
  | PROCESSING
  | COMPLETED
  | FAILED
  | REFUNDED
  | CANCELLED
deriving DecidableEq, Repr

/-- `PremiumSubscription.STATUS_CHOICES` (authentication/models.py lines
169-174). -/
inductive SubStatus where
  | ACTIVE
  | INACTIVE
  | CANCELLED
  | SUSPENDED
deriving DecidableEq, Repr

/-- The fields of `Transaction` that `verify_esewa_payment` reads or
writes (authentication/models.py lines 248-335). -/
structure TxnState where
  status : TxnStatus
  esewa_order_id : Option String
  esewa_ref_id : Option String
  subscription_tier : Tier
deriving DecidableEq, Repr

/-- The fields of `PremiumSubscription` that `verify_esewa_payment`
writes (authentication/models.py lines 154-226). -/
structure SubState where
  tier : Tier
  status : SubStatus
  billing_cycle_start : Option Nat
deriving DecidableEq, Repr

/-- Field defaults of a `PremiumSubscription` row as produced by
`get_or_create` (models.py lines 181-199): tier FREE, status INACTIVE,
nullable billing cycle start. -/
def defaultSubscription : SubState :=
  { tier := Tier.FREE, status := SubStatus.INACTIVE, billing_cycle_start := none }

/-- The records of one user touched by `verify_esewa_payment`: the
transaction matching the order id, the optional `PremiumSubscription`
row, and `UserProfile.subscription_tier`. -/
structure PaymentState where
  txn : TxnState
  subscription : Option SubState
  profile_tier : Tier
deriving DecidableEq, Repr

/-- Python truthiness of `request.data.get(...)` for a string field:
`None` and the empty string are falsy. -/
def pyTruthy : Option String → Bool
  | none => false
  | some s => !(s == "")

/-- `verify_with_esewa(ref_id, order_id)` (views_esewa.py lines
248-271): the gateway call is stubbed in the source as
`return bool(ref_id)`. -/
def verify_with_esewa (refId _orderId : String) : Bool := !(refId == "")

/-- The database writes of the success branch of `verify_esewa_payment`
(views_esewa.py lines 192-210), one entry per `.save()` call, in source
order: (1) the transaction is marked COMPLETED with the gateway ref id,
(2) the `PremiumSubscription` row (created with defaults if absent) gets
the transaction's tier, ACTIVE status and a fresh billing cycle start,
(3) `UserProfile.subscription_tier` is mirrored.  The function body has
no `transaction.atomic()` block and `ATOMIC_REQUESTS` is not set, so
each save commits independently. -/
def esewaSuccessSaves (now : Nat) (refId : String) : List (PaymentState → PaymentState) :=
  [ fun s => { s with txn :=
      { s.txn with status := TxnStatus.COMPLETED, esewa_ref_id := some refId } },
    fun s =>
      let sub0 := s.subscription.getD defaultSubscription
      let sub1 := { sub0 with tier := s.txn.subscription_tier,
                              status := SubStatus.ACTIVE,
                              billing_cycle_start := some now }
      { s with subscription := some sub1 },
    fun s => { s with profile_tier := s.txn.subscription_tier } ]

/-- Run the first `k` of a list of saves: the states reachable when a
failure (crash, raised exception) interrupts the sequence after `k`
commits. -/
def applyFirstSaves (saves : List (PaymentState → PaymentState)) (k : Nat)
    (st : PaymentState) : PaymentState :=
  (saves.take k).foldl (fun s f => f s) st

/-- The responses of `verify_esewa_payment`. -/
inductive EsewaVerifyResponse where
  | missingParams
  | transactionNotFound
  | verificationFailed
  | success (tier : Tier)
deriving DecidableEq, Repr

/-- `verify_esewa_payment(request)` (views_esewa.py lines 155-245):
rejects missing/empty `ref_id`/`order_id`; 404 when no transaction of
the user carries the order id; on gateway verification success runs all
three saves of `esewaSuccessSaves` and answers with the (re)applied
tier; on gateway failure marks the transaction FAILED.  The transaction
status is never consulted: there is no already-completed guard. -/
def verify_esewa_payment_view (now : Nat) (refId orderId : Option String)
    (st : PaymentState) : EsewaVerifyResponse × PaymentState :=
  if !(pyTruthy refId) || !(pyTruthy orderId) then
    (EsewaVerifyResponse.missingParams, st)
  else
    let r := refId.getD ""
    let o := orderId.getD ""
    if st.txn.esewa_order_id ≠ some o then
      (EsewaVerifyResponse.transactionNotFound, st)
    else if verify_with_esewa r o then
      (EsewaVerifyResponse.success st.txn.subscription_tier,
       applyFirstSaves (esewaSuccessSaves now r) 3 st)
    else
      (EsewaVerifyResponse.verificationFailed,
       { st with txn := { st.txn with status := TxnStatus.FAILED } })

/-! ## eSewa callback signature verification (notes/esewa.py)

The verifier recomputes `base64(hmac_sha256(secret, signature_string))`
via the Python `hmac`/`hashlib`/`base64` libraries.  Those libraries are
modelled bit-for-bit below (FIPS 180-4 SHA-256, RFC 2104 HMAC, RFC 4648
base64) on byte lists, with 32-bit words as naturals reduced mod 2^32. -/

/-- Two to the 32nd, the word modulus of SHA-256. -/
def w32 : Nat := 4294967296

/-- Right rotation of a 32-bit word. -/
def rotr32 (n x : Nat) : Nat := ((x >>> n) ||| (x <<< (32 - n))) % w32

/-- The SHA-256 round constants K (first 32 bits of the fractional parts
of the cube roots of the first 64 primes), written in decimal. -/
def sha256K : List Nat :=
  [1116352408, 1899447441, 3049323471, 3921009573, 961987163,
   1508970993, 2453635748, 2870763221, 3624381080, 310598401,
   607225278, 1426881987, 1925078388, 2162078206, 2614888103,
   3248222580, 3835390401, 4022224774, 264347078, 604807628,
   770255983, 1249150122, 1555081692, 1996064986, 2554220882,
   2821834349, 2952996808, 3210313671, 3336571891, 3584528711,
   113926993, 338241895, 666307205, 773529912, 1294757372,
   1396182291, 1695183700, 1986661051, 2177026350, 2456956037,
   2730485921, 2820302411, 3259730800, 3345764771, 3516065817,
   3600352804, 4094571909, 275423344, 430227734, 506948616,
   659060556, 883997877, 958139571, 1322822218, 1537002063,
   1747873779, 1955562222, 2024104815, 2227730452, 2361852424,
   2428436474, 2756734187, 3204031479, 3329325298]

/-- The SHA-256 initial hash value H0 (first 32 bits of the fractional
parts of the square roots of the first 8 primes), written in decimal. -/
def sha256H0 : List Nat :=
  [1779033703, 3144134277, 1013904242, 2773480762,
   1359893119, 2600822924, 528734635, 1541459225]

/-- SHA-256 message padding: append `0x80`, zeros up to 56 mod 64, then
the bit length as 8 big-endian bytes. -/
def sha256Pad (msg : List Nat) : List Nat :=
  let len := msg.length
  let zeros := (120 - ((len + 1) % 64)) % 64
  msg ++ [0x80] ++ List.replicate zeros 0
      ++ (List.range 8).map (fun i => ((8 * len) >>> (56 - 8 * i)) % 256)

/-- The 64-entry message schedule of one 64-byte block. -/
def sha256Schedule (block : List Nat) : List Nat :=
  let w16 := (List.range 16).map fun j =>
    block.getD (4 * j) 0 * 16777216 + block.getD (4 * j + 1) 0 * 65536
      + block.getD (4 * j + 2) 0 * 256 + block.getD (4 * j + 3) 0
  (List.range 48).foldl (fun w t =>
    let s0 := rotr32 7 (w.getD (t + 1) 0) ^^^ rotr32 18 (w.getD (t + 1) 0)
                ^^^ (w.getD (t + 1) 0 >>> 3)
    let s1 := rotr32 17 (w.getD (t + 14) 0) ^^^ rotr32 19 (w.getD (t + 14) 0)
                ^^^ (w.getD (t + 14) 0 >>> 10)
    w ++ [(w.getD t 0 + s0 + w.getD (t + 9) 0 + s1) % w32]) w16

/-- The eight working registers a..h of the SHA-256 compression loop. -/
structure Sha256Regs where
  ra : Nat
  rb : Nat
  rc : Nat
  rd : Nat
  re : Nat
  rf : Nat
  rg : Nat
  rh : Nat
deriving Repr

/-- One round of the SHA-256 compression function. -/
def sha256Round (w : List Nat) (r : Sha256Regs) (t : Nat) : Sha256Regs :=
  let bigS1 := rotr32 6 r.re ^^^ rotr32 11 r.re ^^^ rotr32 25 r.re
  let ch := (r.re &&& r.rf) ^^^ ((r.re ^^^ 0xffffffff) &&& r.rg)
  let t1 := (r.rh + bigS1 + ch + sha256K.getD t 0 + w.getD t 0) % w32
  let bigS0 := rotr32 2 r.ra ^^^ rotr32 13 r.ra ^^^ rotr32 22 r.ra
  let maj := (r.ra &&& r.rb) ^^^ (r.ra &&& r.rc) ^^^ (r.rb &&& r.rc)
  let t2 := (bigS0 + maj) % w32
  { ra := (t1 + t2) % w32, rb := r.ra, rc := r.rb, rd := r.rc,
    re := (r.rd + t1) % w32, rf := r.re, rg := r.rf, rh := r.rg }

/-- Compress one 64-byte block into the running 8-word hash state. -/
def sha256Compress (h : List Nat) (block : List Nat) : List Nat :=
  let w := sha256Schedule block
  let init : Sha256Regs :=
    { ra := h.getD 0 0, rb := h.getD 1 0, rc := h.getD 2 0, rd := h.getD 3 0,
      re := h.getD 4 0, rf := h.getD 5 0, rg := h.getD 6 0, rh := h.getD 7 0 }
  let r := (List.range 64).foldl (sha256Round w) init
  [(h.getD 0 0 + r.ra) % w32, (h.getD 1 0 + r.rb) % w32,
   (h.getD 2 0 + r.rc) % w32, (h.getD 3 0 + r.rd) % w32,
   (h.getD 4 0 + r.re) % w32, (h.getD 5 0 + r.rf) % w32,
   (h.getD 6 0 + r.rg) % w32, (h.getD 7 0 + r.rh) % w32]

/-- SHA-256 of a byte list, as a 32-entry byte list
(`hashlib.sha256(msg).digest()`). -/
def sha256 (msg : List Nat) : List Nat :=
  let padded := sha256Pad msg
  let blocks := (List.range (padded.length / 64)).map fun i =>
    (padded.drop (64 * i)).take 64
  let h := blocks.foldl sha256Compress sha256H0
  (h.map fun v => [(v >>> 24) % 256, (v >>> 16) % 256, (v >>> 8) % 256, v % 256]).flatten

/-- RFC 2104 HMAC-SHA256 (`hmac.new(key, msg, hashlib.sha256).digest()`):
a key longer than the 64-byte block is hashed first, then padded with
zeros and combined with the ipad/opad constants. -/
def hmacSha256 (key msg : List Nat) : List Nat :=
  let k1 := if 64 < key.length then sha256 key else key
  let k0 := k1 ++ List.replicate (64 - k1.length) 0
  sha256 ((k0.map (· ^^^ 0x5c)) ++ sha256 ((k0.map (· ^^^ 0x36)) ++ msg))

/-- The base64 alphabet of RFC 4648. -/
def base64Alphabet : String :=
  "ABCDEFGHIJKLMNOPQRSTUVWXYZabcdefghijklmnopqrstuvwxyz0123456789+/"

/-- Standard base64 of a byte list with `=` padding
(`base64.b64encode(...).decode()`). -/
def base64Encode (bytes : List Nat) : String :=
  let ch := fun n => base64Alphabet.toList.getD n 'A'
  let groups := (bytes.length + 2) / 3
  String.mk ((List.range groups).map (fun i =>
    let v := bytes.getD (3 * i) 0 * 65536 + bytes.getD (3 * i + 1) 0 * 256
               + bytes.getD (3 * i + 2) 0
    [ch (v / 262144), ch (v / 4096 % 64),
     if 3 * i + 1 < bytes.length then ch (v / 64 % 64) else '=',
     if 3 * i + 2 < bytes.length then ch (v % 64) else '=']) |>.flatten)

/-- UTF-8 bytes of a string (`str.encode()`). -/
def strBytes (s : String) : List Nat := s.toUTF8.toList.map (·.toNat)

/-- `base64.b64encode(hmac.new(secret_key.encode(), s.encode(),
hashlib.sha256).digest()).decode()` as used in notes/esewa.py lines
26-33 and 66-73. -/
def hmacSha256Base64 (key msg : String) : String :=
  base64Encode (hmacSha256 (strBytes key) (strBytes msg))

/-- The hardcoded eSewa secret key of notes/esewa.py lines 18 and 55
(the public UAT test key). -/
def esewaSecretKey : String := "8gBm/:&EnhH.1/q"

/-- `data.get(field)` on the callback payload, modelled as an
association list of string fields. -/
def payloadGet (data : List (String × String)) (field : String) : Option String :=
  match data with
  | [] => none
  | (k, v) :: rest => if k == field then some v else payloadGet rest field

/-- The Python f-string `f"{field}={data.get(field)}"`: a missing field
is rendered as the literal `None`, exactly as `str(None)` does. -/
def payloadFieldPart (data : List (String × String)) (field : String) : String :=
  match payloadGet data field with
  | some v => field ++ "=" ++ v
  | none => field ++ "=" ++ "None"

/-- Helper for `pySplitComma`: walk the characters, cutting at commas. -/
def pySplitCommaAux : List Char → List Char → List String
  | [], acc => [String.mk acc.reverse]
  | c :: rest, acc =>
      if c = ',' then String.mk acc.reverse :: pySplitCommaAux rest []
      else pySplitCommaAux rest (c :: acc)

/-- Python `s.split(',')`: split on every comma, keeping empty pieces
(so the empty string yields `[""]`). -/
def pySplitComma (s : String) : List String := pySplitCommaAux s.data []

/-- Python `','.join(parts)`. -/
def pyJoinComma : List String → String
  | [] => ""
  | [s] => s
  | s :: rest => s ++ "," ++ pyJoinComma rest

/-- The signature string rebuilt by `verify_esewa_payment` in
notes/esewa.py lines 58-64: the comma-separated `signed_field_names`
value (defaulting to the empty string) is split on commas and each named
field contributes `"{field}={value}"`, joined by commas. -/
def esewaSignatureString (data : List (String × String)) : String :=
  let fields := pySplitComma ((payloadGet data "signed_field_names").getD "")
  pyJoinComma (fields.map (payloadFieldPart data))

/-- `verify_esewa_payment(data)` of notes/esewa.py lines 50-85: the
received signature is compared with the recomputed base64 HMAC-SHA256 of
the rebuilt signature string.  A missing `signature` field makes the
Python comparison `None == expected_signature` false; the surrounding
`try`/`except` only returns `False` on exceptions, so the function is
total with no success-path exception. -/
def verify_esewa_callback (data : List (String × String)) : Bool :=
  match payloadGet data "signature" with
  | some s => s == hmacSha256Base64 esewaSecretKey (esewaSignatureString data)
  | none => false

/-! ## Concrete scenarios used by individual claims -/

/-- A per-counter TOTP code table used to exercise the enrollment flow:
codes for distinct counters are distinct. -/
def c9hotp : String → Int → String := fun s i => s ++ Nat.repr (i + 2).toNat

/-- An enrollment trace: enroll and confirm a first secret, then run
setup again while 2FA is already enabled. -/
def c9Trace : List TwoFAEvent :=
  [TwoFAEvent.setupEnable "SECRETONE" 0,
   TwoFAEvent.verifyToken (c9hotp "SECRETONE" 0) 0,
   TwoFAEvent.setupEnable "SECRETTWO" 5]

/-- A pending PRO upgrade transaction for order `ORD-1`, FREE profile,
no subscription row yet: the state right after `initiate_esewa_payment`. -/
def c1Initial : PaymentState :=
  { txn := { status := TxnStatus.PENDING, esewa_order_id := some "ORD-1",
             esewa_ref_id := none, subscription_tier := Tier.PRO }
    subscription := none
    profile_tier := Tier.FREE }

/-- The same initiation state for the atomicity scenario. -/
def c2Initial : PaymentState :=
  { txn := { status := TxnStatus.PENDING, esewa_order_id := some "ORD-2",
             esewa_ref_id := none, subscription_tier := Tier.PRO }
    subscription := none
    profile_tier := Tier.FREE }

/-- A callback payload that names `total_amount` as a signed field but
does not carry it, with a signature computed (using the hardcoded,
publicly known test key) over the string the verifier will rebuild. -/
def c4Payload : List (String × String) :=
  [("signed_field_names", "total_amount"),
   ("signature", hmacSha256Base64 esewaSecretKey "total_amount=None")]

/-! ## Helper lemmas -/

/-- Unfold `is_account_locked` when the lock timestamp is known. -/
theorem is_account_locked_of_some (p : LockState) (t now : Nat)
    (h : p.account_locked_until = some t) :
    is_account_locked p now =
      if now < t then (true, p)
      else (false, { p with account_locked_until := none, failed_login_attempts := 0 }) := by
  unfold is_account_locked
  rw [h]

/-- Folding `n` failed-login increments adds `n` to the attempt counter. -/
theorem foldl_increment_attempts (n : Nat) (now : Nat) : ∀ p : LockState,
    ((List.replicate n now).foldl increment_failed_login p).failed_login_attempts
      = p.failed_login_attempts + n := by
  induction n with
  | zero => intro p; simp
  | succ m ih =>
      intro p
      rw [List.replicate_succ, List.foldl_cons, ih]
      simp [increment_failed_login]
      omega

/-- Once the attempt counter would reach the failure limit, the last
increment of the sequence stamps `locked_until = now + cooloff`. -/
theorem foldl_increment_locked (n : Nat) (now : Nat) : ∀ p : LockState,
    1 ≤ n → axesFailureLimit ≤ p.failed_login_attempts + n →
    ((List.replicate n now).foldl increment_failed_login p).account_locked_until
      = some (now + axesCooloffSeconds) := by
  induction n with
  | zero => intro p h1 _; omega
  | succ m ih =>
      intro p _ hlim
      rw [List.replicate_succ, List.foldl_cons]
      cases Nat.eq_zero_or_pos m with
      | inl hm =>
          subst hm
          simp only [List.replicate, List.foldl_nil]
          simp only [increment_failed_login]
          rw [if_pos (by omega)]
      | inr hm =>
          apply ih _ hm
          simp [increment_failed_login]
          omega

/-- A candidate contained in a list defeats an `all`-scan for
distinctness from every entry. -/
theorem all_not_beq_eq_false_of_contains (l : List String) (a : String)
    (h : l.contains a = true) : (l.all fun x => !(a == x)) = false := by
  induction l with
  | nil => simp at h
  | cons b bs ih =>
      rw [List.all_cons]
      by_cases hab : (a == b) = true
      · rw [hab]
        rfl
      · have hb : bs.contains a = true := by
          have : (a == b || bs.contains a) = true := by
            simpa [List.contains_cons] using h
          rcases Bool.or_eq_true_iff.mp this with h1 | h1
          · exact absurd h1 hab
          · exact h1
        rw [ih hb]
        simp

/-! ## Claim theorems -/

/-- C5: for a user whose security profile is missing, `check_note_limit`
answers `allowed = True` even at a note count where a FREE-tier user is
denied — the fallback is fail-open for the note limit, contradicting its
own "default to FREE tier" comment (API access and upload size do fall
back restrictively). -/
theorem c5_missing_profile_note_limit_fail_open :
    (check_note_limit none 50).allowed = true
      ∧ (check_note_limit (some Tier.FREE) 50).allowed = false
      ∧ check_api_access none = false
      ∧ check_upload_size_limit none 6 = check_upload_size_limit (some Tier.FREE) 6 := by
  decide

/-- C10: `verify_totp` on a profile with no stored TOTP secret returns
false for every token and every time step — it fails closed. -/
theorem c10_verify_totp_without_secret (hotp : String → Int → String)
    (token : String) (step : Int) :
    verify_totp hotp none token step = false := rfl

/-- C7: the audit actions actually recorded for 2FA enabled, 2FA
disabled and password changed all coincide with the note-update action
`UPDATE_NOTE` instead of being distinct, and the payment actions written
by the eSewa views are not members of the closed enumeration
`AuditLog.ACTION_CHOICES` at all. -/
theorem c7_audit_actions_not_distinct :
    twoFactorEnabledAuditAction = noteUpdatedAuditAction
      ∧ twoFactorDisabledAuditAction = noteUpdatedAuditAction
      ∧ passwordChangedAuditAction = noteUpdatedAuditAction
      ∧ auditActionChoices.contains paymentInitiatedAuditAction = false
      ∧ auditActionChoices.contains paymentCompletedAuditAction = false := by
  decide

/-- C3 counterexample: five failed attempts at t=640 lock the account
until t=1000, yet at exactly t=1000 — where `now > locked_until` is
still false — `is_account_locked` already returns false, because the
source tests `now < account_locked_until` strictly. -/
theorem c3_unlocks_at_exact_expiry :
    (((List.replicate 5 640).foldl increment_failed_login freshLockState).account_locked_until
        = some 1000)
      ∧ ((is_account_locked
            ((List.replicate 5 640).foldl increment_failed_login freshLockState) 1000).1 = false)
      ∧ ¬ (1000 > 1000) := by
  decide

/-- C3 amended: after `n ≥ 5` consecutive failed logins at time `now`
the lock timestamp is `now + cooloff`, the lock check is true exactly
while `checkTime < now + cooloff` (so it turns false already at
`checkTime = now + cooloff`, not only strictly after), and the first
check at or past expiry lazily clears the lock and resets the counter
to 0. -/
theorem c3_lockout_behaviour (n now checkTime : Nat) (h5 : axesFailureLimit ≤ n) :
    (((List.replicate n now).foldl increment_failed_login freshLockState).account_locked_until
        = some (now + axesCooloffSeconds))
      ∧ ((is_account_locked
            ((List.replicate n now).foldl increment_failed_login freshLockState) checkTime).1
              = true
          ↔ checkTime < now + axesCooloffSeconds)
      ∧ (now + axesCooloffSeconds ≤ checkTime →
          ((is_account_locked
              ((List.replicate n now).foldl increment_failed_login freshLockState)
              checkTime).2.failed_login_attempts = 0
            ∧ (is_account_locked
                ((List.replicate n now).foldl increment_failed_login freshLockState)
                checkTime).2.account_locked_until = none)) := by
  have hl : ((List.replicate n now).foldl increment_failed_login freshLockState).account_locked_until
      = some (now + axesCooloffSeconds) := by
    apply foldl_increment_locked n now freshLockState
    · have : (5 : Nat) ≤ n := h5
      omega
    · simpa [freshLockState] using h5
  refine ⟨hl, ?_, ?_⟩
  · rw [is_account_locked_of_some _ _ _ hl]
    by_cases hc : checkTime < now + axesCooloffSeconds
    · rw [if_pos hc]
      simpa using hc
    · rw [if_neg hc]
      simp [hc]
  · intro hge
    rw [is_account_locked_of_some _ _ _ hl, if_neg (by omega)]
    exact ⟨rfl, rfl⟩

/-- Witness for `c3_lockout_behaviour` at n=5, now=7. -/
theorem c3_lockout_behaviour_witness :
    axesFailureLimit ≤ 5
      ∧ (((List.replicate 5 7).foldl increment_failed_login freshLockState).account_locked_until
          = some (7 + axesCooloffSeconds)) :=
  ⟨by decide, (c3_lockout_behaviour 5 7 0 (by decide)).1⟩

/-- C6 counterexample: with an empty password history (no change has
been recorded yet), changing the password to the very password in use
succeeds — and the old password then still verifies against the stored
credential, because the current credential is only entered into the
history at change time. -/
theorem c6_change_to_same_password_succeeds :
    change_password { current := "Aa1!aaaaaaaa", history := [] } "Aa1!aaaaaaaa" "Aa1!aaaaaaaa"
        = Except.ok { current := "Aa1!aaaaaaaa", history := ["Aa1!aaaaaaaa"] }
      ∧ credVerify "Aa1!aaaaaaaa"
          ({ current := "Aa1!aaaaaaaa", history := ["Aa1!aaaaaaaa"] } : CredState).current
            = true := by
  decide

/-- C6 amended: when a password change succeeds the new password
verifies, and the old one no longer verifies provided it differs from
the new one; and a new password matching any of the newest 5 recorded
history entries is rejected with the reuse error (given a correct old
password). -/
theorem c6_change_password_behaviour (st : CredState) (oldP newP : String) :
    (∀ st2, change_password st oldP newP = Except.ok st2 →
        credVerify newP st2.current = true
          ∧ (oldP ≠ newP → credVerify oldP st2.current = false))
      ∧ (credVerify oldP st.current = true →
          (st.history.take passwordHistoryCount).contains newP = true →
          change_password st oldP newP = Except.error PwError.reuse) := by
  constructor
  · intro st2 hok
    simp only [change_password] at hok
    split at hok
    · exact absurd hok (by simp)
    · split at hok
      · exact absurd hok (by simp)
      · split at hok
        · exact absurd hok (by simp)
        · injection hok with h
          subst h
          constructor
          · simp [credVerify]
          · intro hne
            simp only [credVerify]
            exact beq_eq_false_iff_ne.mpr hne
  · intro hold hcont
    have hall : ((st.history.take passwordHistoryCount).all fun x => !(newP == x)) = false :=
      all_not_beq_eq_false_of_contains _ _ hcont
    simp only [credVerify] at hold
    simp [change_password, check_password_history, credVerify, hold, hall]

/-- Witness for `c6_change_password_behaviour`: a successful change and
a rejected reuse, both concrete. -/
theorem c6_change_password_behaviour_witness :
    credVerify "Bb2?bbbbbbbb"
        ({ current := "Bb2?bbbbbbbb", history := ["Bb2?bbbbbbbb"] } : CredState).current = true
      ∧ change_password { current := "Aa1!aaaaaaaa", history := ["Bb2?bbbbbbbb"] }
          "Aa1!aaaaaaaa" "Bb2?bbbbbbbb" = Except.error PwError.reuse := by
  constructor
  · exact ((c6_change_password_behaviour { current := "Aa1!aaaaaaaa", history := [] }
      "Aa1!aaaaaaaa" "Bb2?bbbbbbbb").1
      { current := "Bb2?bbbbbbbb", history := ["Bb2?bbbbbbbb"] } (by decide)).1
  · exact (c6_change_password_behaviour { current := "Aa1!aaaaaaaa", history := ["Bb2?bbbbbbbb"] }
      "Aa1!aaaaaaaa" "Bb2?bbbbbbbb").2 (by decide) (by decide)

/-- C8: for an enrolled (non-empty) secret, verification accepts the
codes of time-steps T-1, T and T+1, and rejects any token that differs
from all three window codes — in particular a token generated for T-2
or T+2 whenever its code does not collide with a window code. -/
theorem c8_totp_drift_window (hotp : String → Int → String) (s : String) (hs : s ≠ "")
    (T : Int) (token : String) :
    verify_totp hotp (some s) (hotp s (T - 1)) T = true
      ∧ verify_totp hotp (some s) (hotp s T) T = true
      ∧ verify_totp hotp (some s) (hotp s (T + 1)) T = true
      ∧ (token ≠ hotp s (T - 1) → token ≠ hotp s T → token ≠ hotp s (T + 1) →
          verify_totp hotp (some s) token T = false) := by
  have hv : ∀ tok, verify_totp hotp (some s) tok T = totpVerifyWindow (hotp s) tok T := by
    intro tok
    simp [verify_totp, hs]
  refine ⟨?_, ?_, ?_, ?_⟩
  · rw [hv]
    simp [totpVerifyWindow]
  · rw [hv]
    simp [totpVerifyWindow]
  · rw [hv]
    simp [totpVerifyWindow]
  · intro h1 h2 h3
    rw [hv]
    simp only [totpVerifyWindow, beq_eq_false_iff_ne.mpr h1, beq_eq_false_iff_ne.mpr h2,
      beq_eq_false_iff_ne.mpr h3, Bool.or_self, Bool.or_false]

/-- Witness for `c8_totp_drift_window` with a concrete injective code
table: the T+1 code is accepted at T, the T+2 code rejected. -/
theorem c8_totp_drift_window_witness :
    verify_totp (fun s i => s ++ Nat.repr (i + 2).toNat) (some "K")
        ((fun s i => s ++ Nat.repr (i + 2).toNat) "K" ((0 : Int) + 1)) 0 = true
      ∧ verify_totp (fun s i => s ++ Nat.repr (i + 2).toNat) (some "K")
          ((fun s i => s ++ Nat.repr (i + 2).toNat) "K" ((0 : Int) + 2)) 0 = false := by
  constructor
  · exact (c8_totp_drift_window (fun s i => s ++ Nat.repr (i + 2).toNat) "K" (by decide)
      0 "unused").2.2.1
  · exact (c8_totp_drift_window (fun s i => s ++ Nat.repr (i + 2).toNat) "K" (by decide)
      0 ((fun s i => s ++ Nat.repr (i + 2).toNat) "K" ((0 : Int) + 2))).2.2.2
      (by decide) (by decide) (by decide)

/-- C9 counterexample: the trace enroll → confirm → enroll again is
reachable from a fresh profile, and after its final event — a
`generateSecret` via the setup endpoint — the profile holds the brand
new, never verified secret with `two_factor_enabled` still true: the
regenerated secret is active from generation alone. -/
theorem c9_regenerated_secret_active :
    (twoFARun c9hotp freshTwoFAState c9Trace).two_factor_enabled = true
      ∧ (twoFARun c9hotp freshTwoFAState c9Trace).two_factor_secret = some "SECRETTWO"
      ∧ c9Trace.getLast? = some (TwoFAEvent.setupEnable "SECRETTWO" 5) := by
  decide

/-- C9 amended: from any state where 2FA is disabled, generating a
secret leaves it disabled, and the only event that can turn the flag on
is a verify call whose token is valid for the stored secret.  (Once the
flag is already true, re-running setup keeps it true with the fresh
secret.) -/
theorem c9_two_phase_from_disabled (hotp : String → Int → String) (st : TwoFAState)
    (hdis : st.two_factor_enabled = false) :
    (∀ s step, (twoFAStep hotp st (TwoFAEvent.setupEnable s step)).two_factor_enabled = false)
      ∧ (∀ e, (twoFAStep hotp st e).two_factor_enabled = true →
          ∃ token step, e = TwoFAEvent.verifyToken token step
            ∧ verify_totp hotp st.two_factor_secret token step = true) := by
  constructor
  · intro s step
    simp [twoFAStep, hdis]
  · intro e he
    cases e with
    | setupEnable s step => simp [twoFAStep, hdis] at he
    | setupDisable => simp [twoFAStep] at he
    | verifyToken token step =>
        refine ⟨token, step, rfl, ?_⟩
        by_cases hv : verify_totp hotp st.two_factor_secret token step = true
        · exact hv
        · have hb : verify_totp hotp st.two_factor_secret token step = false :=
            Bool.not_eq_true _ ▸ eq_false_of_ne_true hv
          rw [twoFAStep.eq_def] at he
          simp [hb, hdis] at he

/-- Witness for `c9_two_phase_from_disabled` on a fresh profile. -/
theorem c9_two_phase_from_disabled_witness :
    (twoFAStep (fun _ _ => "C") freshTwoFAState
        (TwoFAEvent.setupEnable "S" 0)).two_factor_enabled = false :=
  (c9_two_phase_from_disabled (fun _ _ => "C") freshTwoFAState rfl).1 "S" 0

/-- C1: replaying `verify_esewa_payment` for a transaction that is
already COMPLETED is not rejected: the second call again answers
success, re-runs the whole success branch and re-writes the
subscription mirror, moving `billing_cycle_start` from the first
verification time (100) to the replay time (200) — there is no
AlreadyApplied guard. -/
theorem c1_replay_reapplies_payment :
    (verify_esewa_payment_view 100 (some "REF-1") (some "ORD-1") c1Initial).2.txn.status
        = TxnStatus.COMPLETED
      ∧ (verify_esewa_payment_view 100 (some "REF-1") (some "ORD-1") c1Initial).2.subscription
          = some { tier := Tier.PRO, status := SubStatus.ACTIVE, billing_cycle_start := some 100 }
      ∧ (verify_esewa_payment_view 200 (some "REF-1") (some "ORD-1")
            (verify_esewa_payment_view 100 (some "REF-1") (some "ORD-1") c1Initial).2).1
          = EsewaVerifyResponse.success Tier.PRO
      ∧ (verify_esewa_payment_view 200 (some "REF-1") (some "ORD-1")
            (verify_esewa_payment_view 100 (some "REF-1") (some "ORD-1") c1Initial).2).2.subscription
          = some { tier := Tier.PRO, status := SubStatus.ACTIVE,
                   billing_cycle_start := some 200 } := by
  decide

/-- C2: the success branch of `verify_esewa_payment` runs three
independent saves with no enclosing atomic unit; if the sequence stops
after the second save (subscription written, profile not yet), the
transaction is COMPLETED and the subscription says PRO while the
profile-embedded tier still says FREE — the two mirrored tiers
disagree, so the writes are not all-or-nothing. -/
theorem c2_interrupted_saves_break_tier_mirror :
    (applyFirstSaves (esewaSuccessSaves 100 "REF-2") 2 c2Initial).txn.status
        = TxnStatus.COMPLETED
      ∧ (applyFirstSaves (esewaSuccessSaves 100 "REF-2") 2 c2Initial).subscription
          = some { tier := Tier.PRO, status := SubStatus.ACTIVE, billing_cycle_start := some 100 }
      ∧ (applyFirstSaves (esewaSuccessSaves 100 "REF-2") 2 c2Initial).profile_tier = Tier.FREE
      ∧ (applyFirstSaves (esewaSuccessSaves 100 "REF-2") 3 c2Initial).profile_tier = Tier.PRO := by
  decide

/-- C4 counterexample: a payload that lists `total_amount` among its
signed fields but omits the field itself still verifies, because the
verifier renders the missing field as the literal `None` and the
payload's signature was computed (with the hardcoded public test key)
over that very string — a missing signed field does not make
verification return false. -/
theorem c4_missing_field_payload_verifies :
    payloadGet c4Payload "total_amount" = none
      ∧ verify_esewa_callback c4Payload = true := by
  constructor
  · rfl
  · have hstr : esewaSignatureString c4Payload = "total_amount=None" := by decide
    have h1 : verify_esewa_callback c4Payload
        = (hmacSha256Base64 esewaSecretKey "total_amount=None"
            == hmacSha256Base64 esewaSecretKey (esewaSignatureString c4Payload)) := rfl
    rw [h1, hstr]
    exact beq_self_eq_true _

/-- C4 amended: verification recomputes the base64 HMAC-SHA256 (with the
pre-shared key) of the signature string rebuilt from exactly the fields
named in `signed_field_names`, in order, joined by commas — but a
missing named field contributes the literal value `None` instead of
causing rejection.  The function is total (never throws) and returns
true iff the payload carries a signature equal to the recomputed one, so
it does fail closed on a missing signature or any mismatch. -/
theorem c4_verify_iff_signature_matches (data : List (String × String)) :
    (verify_esewa_callback data = true ↔
        payloadGet data "signature"
          = some (hmacSha256Base64 esewaSecretKey (esewaSignatureString data)))
      ∧ (∀ field, payloadGet data field = none →
          payloadFieldPart data field = field ++ "=" ++ "None") := by
  constructor
  · simp only [verify_esewa_callback]
    cases h : payloadGet data "signature" with
    | none => simp [h]
    | some s => simp [h]
  · intro field h
    simp [payloadFieldPart, h]

/-- Witness for `c4_verify_iff_signature_matches`: the `None`
substitution at a concrete payload missing the named field. -/
theorem c4_verify_iff_signature_matches_witness :
    payloadFieldPart [("signed_field_names", "x")] "x" = "x" ++ "=" ++ "None" :=
  (c4_verify_iff_signature_matches [("signed_field_names", "x")]).2 "x" rfl

end SecureNotes
